import Mathlib

/-!
Shallow embedding of the PyLLM generation–extraction–validation core
(`pyllm/interfaces/base.py`, `pyllm/interfaces/baseline.py`,
`pyllm/interfaces/self_debug.py`, `pyllm/parsers/regex_parser.py`,
`pyllm/utils/caching.py`) together with theorems settling the spec claims.

Modelling conventions:
- Python callables produced by the extractor are values of an abstract type
  `F`; unit-test inputs/outputs are values of an abstract type `V`.
- Python `None` is `Option.none`; exceptions raised by user code are carried
  as `Except.error` with a message string.
- Machine-level effects (HTTP, wall clock, OS file locks) are supplied by the
  environment records below: each call of `client.query` is indexed by the
  number of queries made so far, and each call of `parser.parse_function` by
  the number of parses so far, so that stateful clients and parsers (the
  extractor mutates a shared namespace) are covered.
-/

namespace PyLLM

/-- A role-tagged chat message (the dicts appended to `messages`). -/
structure Message where
  role : String
  content : String
  deriving DecidableEq, Repr

/-- Outcome of one `client.query` call: the reply text, or a
`requests.RequestException` carrying the raw response body. -/
inductive QueryResult where
  | success (text : String)
  | requestException (body : String)
  deriving DecidableEq, Repr

/-- Outcome of one `parser.parse_function` call.  `ok none` models
`RegExParser.parse_function` returning Python `None` when no
function-definition-shaped block is found; `syntaxError` models a raised
`SyntaxError`; `nothingToParse` models a raised `NothingToParseError`
(the exception class lives in `pyllm/utils/exceptions.py`, which only its
importers are in `src/`; it is an exception type with no behavior of its
own, so it is modelled as a constructor here). -/
inductive ParseResult (F : Type) where
  | ok (f : Option F)
  | syntaxError (msg : String)
  | nothingToParse (msg : String)
  deriving DecidableEq, Repr

/-- One element of the `unit_tests` list accepted by
`CodeGenerator.unit_test`: an `(input, expected-output)` pair, or a
validator callable (identified abstractly by an index into the
environment's validator table). -/
inductive TestCase (V : Type) where
  | pair (x y : V)
  | validator (vid : Nat)
  deriving DecidableEq, Repr

/-- The `UnitTestResult` dataclass of `pyllm/interfaces/base.py`:
case index, input, expected output, actual output, captured error.
`none` in `x`/`y`/`yhat`/`error` is Python `None`. -/
structure UnitTestResult (V : Type) where
  id : Nat
  x : Option V
  y : Option V
  yhat : Option V
  error : Option String
  deriving DecidableEq, Repr

/-- The `failed` property: `self.y != self.yhat or self.error`. -/
def UnitTestResult.failed [DecidableEq V] (r : UnitTestResult V) : Bool :=
  decide (r.y ≠ r.yhat) || r.error.isSome

/-- Environment for `CodeGenerator.unit_test`: the behavior of the candidate
callable after it has been wrapped by `wrapt_timeout_decorator.timeout`
(argument: the timeout in seconds) and, when `quiet`, by `swallow_io`.
`wrapped f x` is a plain call `function(x)`, `wrappedStar f x` is the
tuple-unpacked call `function(*x)`; an `Except.error` is any exception the
wrapped call raises, including the timeout error raised when the hard
wall-clock limit is exceeded.  `wrapped`/`wrappedStar` also cover calling a
Python `None` candidate (always an error).  `runValidator vid` is the
outcome of `test(function)` for the validator callable number `vid`:
`none` when it returns normally, `some e` when it raises `e`. -/
structure TestEnv (F V : Type) where
  isTuple : V → Bool
  wrapped : Nat → Bool → Option F → V → Except String V
  wrappedStar : Nat → Bool → Option F → V → Except String V
  runValidator : Nat → Nat → Bool → Option F → Option String

/-- The call made for a pair-shaped case: `function(*x)` when `type(x) is
tuple`, else `function(x)`. -/
def TestEnv.callCase (env : TestEnv F V) (timeoutS : Nat) (quiet : Bool)
    (f : Option F) (x : V) : Except String V :=
  if env.isTuple x then env.wrappedStar timeoutS quiet f x
  else env.wrapped timeoutS quiet f x

/-- The body of one iteration of the `for i, test in enumerate(unit_tests)`
loop of `CodeGenerator.unit_test`: run the case, capturing any exception
into the result's `error` field. -/
def runCase (env : TestEnv F V) (timeoutS : Nat) (quiet : Bool)
    (f : Option F) (i : Nat) (c : TestCase V) : UnitTestResult V :=
  match c with
  | .validator vid =>
      match env.runValidator vid timeoutS quiet f with
      | none => ⟨i, none, none, none, none⟩
      | some e => ⟨i, none, none, none, some e⟩
  | .pair x y =>
      match env.callCase timeoutS quiet f x with
      | .ok v => ⟨i, some x, some y, some v, none⟩
      | .error e => ⟨i, some x, some y, none, some e⟩

/-- The enumerated loop of `CodeGenerator.unit_test`, carrying the running
index `i` of `enumerate`. -/
def unitTestFrom (env : TestEnv F V) (timeoutS : Nat) (quiet : Bool)
    (f : Option F) : Nat → List (TestCase V) → List (UnitTestResult V)
  | _, [] => []
  | i, c :: cs => runCase env timeoutS quiet f i c ::
      unitTestFrom env timeoutS quiet f (i + 1) cs

/-- `CodeGenerator.unit_test` of `pyllm/interfaces/base.py`: wraps the
function with the timeout (and output suppression when `quiet`), then runs
every case in order, converting each case-level exception into a captured
result; it never raises (the embedding is a total function into a plain
list).  In the source `timeout_s` defaults to `5` and `quiet` to `True`;
see `unit_test_default`. -/
def unit_test (env : TestEnv F V) (f : Option F) (cases : List (TestCase V))
    (timeoutS : Nat) (quiet : Bool) : List (UnitTestResult V) :=
  unitTestFrom env timeoutS quiet f 0 cases

/-- `CodeGenerator.unit_test` applied with its default arguments
(`timeout_s=5`, `quiet=True`), as `CodeLLM.def_function` calls it. -/
def unit_test_default (env : TestEnv F V) (f : Option F)
    (cases : List (TestCase V)) : List (UnitTestResult V) :=
  unit_test env f cases 5 true

/-! ### Python dict model (insertion-ordered association list)

Python 3.7+ dicts preserve insertion order; assignment to an existing key
keeps its position, assignment to a fresh key appends.  Both the extractor's
shared namespace (`globals()`) and the JSON cache object are such dicts. -/

/-- First-match lookup, i.e. `m[k]` / `k in m`. -/
def dictLookup (m : List (String × α)) (k : String) : Option α :=
  (m.find? (fun p => decide (p.1 = k))).map Prod.snd

/-- Python dict assignment `m[k] = v`: replace in place when the key exists,
append otherwise. -/
def dictSet (m : List (String × α)) (k : String) (v : α) : List (String × α) :=
  if m.any (fun p => decide (p.1 = k)) then
    m.map (fun p => if p.1 = k then (k, v) else p)
  else m ++ [(k, v)]

/-! ### `RegExParser.parse_function` (`pyllm/parsers/regex_parser.py`)

The regex scan over the model text yields a list of import statements and a
list of function-definition-shaped blocks.  A block is embedded by what the
remaining code observes of it:
- `declaredNames`: the names of all `ast.FunctionDef` nodes that `ast.walk`
  finds in the block (top-level and nested), used only through membership
  (the source collects them into a Python `set`);
- `topLevelDefs`: the bindings `exec` adds to the shared namespace, in
  program order (only top-level `def`s bind; nested ones do not);
- a `malformed` block is one on which `ast.parse` raises `SyntaxError`,
  which propagates out of `parse_function`.
Import statements are embedded by the bindings their `exec` introduces. -/

/-- One function-definition-shaped block found by the regex scan. -/
inductive CodeBlock (V : Type) where
  | malformed (msg : String)
  | wf (declaredNames : List String) (topLevelDefs : List (String × V))
  deriving DecidableEq, Repr

/-- Executing a sequence of bindings into the shared namespace
(`exec(code, namespace)`). -/
def execBindings (ns : List (String × V)) (defs : List (String × V)) :
    List (String × V) :=
  defs.foldl (fun m kv => dictSet m kv.1 kv.2) ns

/-- The `for name, value in namespace.items(): if name in function_names:
return value` scan: the first entry of the namespace, in namespace
(insertion) order, whose name is among the block's declared names. -/
def firstDetected (ns : List (String × V)) (names : List String) : Option V :=
  (ns.find? (fun p => decide (p.1 ∈ names))).map Prod.snd

/-- The `for code_str in function_blocks` loop: parse (propagating
`SyntaxError` on a malformed block), execute into the namespace, and return
the first namespace entry whose name was declared by the block; if no block
yields one, fall through to `return None`. -/
def runBlocks (ns : List (String × V)) :
    List (CodeBlock V) → Except String (Option V)
  | [] => .ok none
  | .malformed msg :: _ => .error msg
  | .wf names defs :: rest =>
      let ns1 := execBindings ns defs
      match firstDetected ns1 names with
      | some v => .ok (some v)
      | none => runBlocks ns1 rest

/-- `RegExParser.parse_function`: execute the import statements into the
shared namespace, then process the function blocks.  `ns` is the shared
namespace (`globals()` of `pyllm/parsers/regex_parser.py`) at call time. -/
def parse_function (ns : List (String × V)) (imports : List (String × V))
    (blocks : List (CodeBlock V)) : Except String (Option V) :=
  runBlocks (execBindings ns imports) blocks

/-- Modelled from the spec (for comparison with `parse_function`): "return
the first name (in block-then-declaration order) that now resolves to a
defined value in that namespace" — scan each block's declared names in
declaration order and return the first that resolves after the block was
executed. -/
def firstDeclaredResolving (ns : List (String × V)) :
    List String → Option V
  | [] => none
  | n :: rest =>
      match dictLookup ns n with
      | some v => some v
      | none => firstDeclaredResolving ns rest

/-- Modelled from the spec: the block loop of the spec's §4.2 step 4, with
the return value selected in block-then-declaration order. -/
def runBlocksSpec (ns : List (String × V)) :
    List (CodeBlock V) → Except String (Option V)
  | [] => .ok none
  | .malformed msg :: _ => .error msg
  | .wf names defs :: rest =>
      let ns1 := execBindings ns defs
      match firstDeclaredResolving ns1 names with
      | some v => .ok (some v)
      | none => runBlocksSpec ns1 rest

/-- Modelled from the spec: `parse_function` as the spec's words describe
it, differing from the source only in the order used to pick the returned
function. -/
def parse_function_spec (ns : List (String × V))
    (imports : List (String × V)) (blocks : List (CodeBlock V)) :
    Except String (Option V) :=
  runBlocksSpec (execBindings ns imports) blocks

/-! ### `CacheHandler.__enter__` (`pyllm/utils/caching.py`)

The persisted cache file is observed through four states: missing;
present but with bytes that do not decode as text under the default
encoding (reading the text-mode file inside `json.load` raises
`UnicodeDecodeError`); decodable text on which `json.load` raises
`json.JSONDecodeError`; or content parsed to a JSON object.  `__enter__`
creates a missing file as `{}` and overwrites a `JSONDecodeError` file
with `{}` inside the file lock — but its handler catches only
`json.JSONDecodeError`, so a `UnicodeDecodeError` from undecodable bytes
is not caught: the `finally` releases the lock and the error propagates
to the caller, with the file left as it was. -/

/-- The observable state of the persisted cache file. -/
inductive CacheFileState (E : Type) where
  | missing
  | undecodable
  | unparsable
  | parsed (m : List (String × E))
  deriving DecidableEq, Repr

/-- `CacheHandler.__enter__`: on success, returns the file state after
the create-or-repair step together with the mapping the caller will read.
A missing file is created as the empty object; a file raising
`json.JSONDecodeError` is overwritten with the empty object; a parseable
file is left as is.  A file whose bytes raise `UnicodeDecodeError` hits
no handler (`except json.JSONDecodeError` does not cover it): the
exception propagates and the file is unchanged. -/
def cacheEnter : CacheFileState E →
    Except String (CacheFileState E × List (String × E))
  | .missing => .ok (.parsed [], [])
  | .undecodable => .error "UnicodeDecodeError"
  | .unparsable => .ok (.parsed [], [])
  | .parsed m => .ok (.parsed m, m)

/-! ### `CodeLLM.def_function` (`pyllm/interfaces/baseline.py`)

The environment abstracts the injected collaborators: the client (each
`client.query` call is indexed by the attempt number; the loop makes exactly
one query per attempt), `self.parser` (indexed by attempt number, since the
extractor mutates a shared namespace and is therefore stateful), and the
`getattr(parsers, name)()` lookup used on the cache-hit path.  The prompt
template rendering is a pure string operation of an excluded collaborator
and does not influence any modelled outcome. -/

/-- The `SamplingParams` dataclass (`pyllm/utils/types.py`); float fields
are modelled as rationals.  Source defaults: temperature 0, top_p 1.0,
n 1, stop None, max_tokens None, penalties 0.0, seed None. -/
structure SamplingParams where
  temperature : Rat
  top_p : Rat
  n : Nat
  stop : Option (Sum String (List String))
  max_tokens : Option Nat
  presence_penalty : Rat
  frequency_penalty : Rat
  seed : Option Nat
  deriving DecidableEq, Repr

/-- `SamplingParams()` with all defaults. -/
def SamplingParams.default : SamplingParams :=
  ⟨0, 1, 1, none, none, 0, 0, none⟩

/-- One value of the persisted cache object: `{"model_response": ...,
"sampling_params": asdict(...), "parser": <class name>}`.  The
`sampling_params` JSON dict is modelled structurally, so the source's
`asdict(SamplingParams(**d))` round-trip is the identity (true for every
entry this code writes, since it always stores exactly the dataclass's
fields). -/
structure CacheEntry where
  model_response : String
  sampling_params : SamplingParams
  parserName : String
  deriving DecidableEq, Repr

/-- The `Function` object returned by `CodeLLM.def_function`
(`pyllm/utils/types.py`): the callable (possibly Python `None` when the
extractor returned `None`), its verbatim source text, the model name, the
sampling parameters used, and the identity of the extractor used. -/
structure FunctionRecord (F : Type) where
  function : Option F
  source : String
  model_name : String
  sampling_params : SamplingParams
  parserName : String
  deriving DecidableEq, Repr

/-- The caller-visible outcome of `CodeLLM.def_function`: a returned
`Function`, a raised `TooManyRetries`, or some other uncaught exception
(e.g. a `SyntaxError` raised while re-parsing a cached response, which no
handler covers on the cache-hit path). -/
inductive BResult (F : Type) where
  | ok (fn : FunctionRecord F)
  | tooManyRetries (msg : String)
  | uncaught (msg : String)
  deriving DecidableEq, Repr

/-- Full observable outcome of one `CodeLLM.def_function` call: the result,
the persisted cache content after the call, and counters of the model
queries issued, the unit-test batch runs performed, and whether the cache
file was written. -/
structure BOutcome (F : Type) where
  result : BResult F
  finalCache : List (String × CacheEntry)
  nQueries : Nat
  nTestRuns : Nat
  wroteCache : Bool
  deriving DecidableEq, Repr

/-- Environment of collaborators for `CodeLLM.def_function`. -/
structure BaselineEnv (F V : Type) where
  test : TestEnv F V
  query : Nat → QueryResult
  parse : Nat → String → ParseResult F
  parserName : String
  parserByName : String → String → ParseResult F
  seeds : Nat → Nat
  modelName : String

/-- Python truthiness of the `unit_tests` argument at `if unit_tests:`:
false for `None` and for the empty list. -/
def unitTestsTruthy (cases : Option (List (TestCase V))) : Bool :=
  match cases with
  | none => false
  | some l => !l.isEmpty

/-- Result of the `for cur_try in range(n_retries)` loop: either an attempt
broke out with a candidate that passed (or with no tests to run), or the
range was exhausted and the `else:` clause raises `TooManyRetries`.
Carries the sampling parameters as mutated so far and the query/test-run
counters. -/
inductive LoopOut (F : Type) where
  | accepted (f : Option F) (response : String) (sp : SamplingParams)
      (nQ nT : Nat)
  | exhausted (sp : SamplingParams) (nQ nT : Nat)
  deriving DecidableEq, Repr

/-- The retry loop of `CodeLLM.def_function` (source lines 148–205): per
attempt, draw a fresh seed into the sampling parameters, query the model
(a `RequestException` is logged and the attempt abandoned), parse the
response (`SyntaxError` / `NothingToParseError` are logged and the attempt
abandoned), and, when `unit_tests` is truthy, run the harness and abandon
the attempt when any case failed; otherwise break out accepted. -/
def attemptLoop [DecidableEq V] (env : BaselineEnv F V)
    (cases : Option (List (TestCase V))) :
    Nat → Nat → SamplingParams → Nat → Nat → LoopOut F
  | _, 0, sp, nQ, nT => .exhausted sp nQ nT
  | i, remaining + 1, sp, nQ, nT =>
      let sp1 := { sp with seed := some (env.seeds i) }
      match env.query i with
      | .requestException _ =>
          attemptLoop env cases (i + 1) remaining sp1 (nQ + 1) nT
      | .success r =>
          match env.parse i r with
          | .syntaxError _ =>
              attemptLoop env cases (i + 1) remaining sp1 (nQ + 1) nT
          | .nothingToParse _ =>
              attemptLoop env cases (i + 1) remaining sp1 (nQ + 1) nT
          | .ok f =>
              if unitTestsTruthy cases then
                let results := unit_test_default env.test f (cases.getD [])
                if (results.filter (fun t => t.failed)).isEmpty then
                  .accepted f r sp1 (nQ + 1) (nT + 1)
                else
                  attemptLoop env cases (i + 1) remaining sp1 (nQ + 1)
                    (nT + 1)
              else .accepted f r sp1 (nQ + 1) nT

/-- `CodeLLM.def_function`.  `cache` is the parsed content of the persisted
cache file at call time (already normalized by `CacheHandler.__enter__`);
within a single call the re-read before the write-back sees the same
content.  On a cache hit (`use_cached` and the exact prompt string is a
key), the stored response is re-parsed with the extractor named in the
entry and the retry loop is bypassed; a parse exception there propagates
uncaught.  Every non-raising path then re-reads the cache, stores an entry
for the prompt, and writes the file back before returning. -/
def def_function_baseline [DecidableEq V] (env : BaselineEnv F V)
    (prompt : String) (cases : Option (List (TestCase V)))
    (use_cached : Bool) (n_retries : Nat) (sp0 : SamplingParams)
    (cache : List (String × CacheEntry)) : BOutcome F :=
  match (if use_cached then dictLookup cache prompt else none) with
  | some e =>
      match env.parserByName e.parserName e.model_response with
      | .syntaxError msg => ⟨.uncaught msg, cache, 0, 0, false⟩
      | .nothingToParse msg => ⟨.uncaught msg, cache, 0, 0, false⟩
      | .ok f =>
          let entry : CacheEntry :=
            ⟨e.model_response, e.sampling_params, e.parserName⟩
          ⟨.ok ⟨f, e.model_response, env.modelName, e.sampling_params,
              e.parserName⟩,
            dictSet cache prompt entry, 0, 0, true⟩
  | none =>
      match attemptLoop env cases 0 n_retries sp0 0 0 with
      | .exhausted _ nQ nT =>
          ⟨.tooManyRetries "n_retries exceeded.", cache, nQ, nT, false⟩
      | .accepted f r sp nQ nT =>
          let entry : CacheEntry := ⟨r, sp, env.parserName⟩
          ⟨.ok ⟨f, r, env.modelName, sp, env.parserName⟩,
            dictSet cache prompt entry, nQ, nT, true⟩

/-! ### `SelfDebugLLM.def_function` (`pyllm/interfaces/self_debug.py`)

Trickier state: `messages`, `model_response`, `function` and
`success_turn_model_response` are plain function locals, so they persist
across turns and across outer retries; only `success_feedback` and
`success_turn_function` are reset at the top of each outer retry.  In the
confirmation turn (when `success_feedback` is set) the query reply is
assigned to `success_turn_model_response`, while the subsequent parse is
applied to `model_response` — the *previous* turn's reply text — exactly as
the source does.  Exception handlers in the confirmation turn perform
`if not success_feedback: break`, i.e. nothing, and control falls through
to the following statements. -/

/-- Feedback modes of the self-debug loop. -/
inductive FeedbackMode where
  | simple
  | ut
  | utExpl
  | utTrace
  deriving DecidableEq, Repr

/-- Environment of collaborators for `SelfDebugLLM.def_function`:
query results indexed by the running count of `client.query` calls
(feedback modes `ut+expl` and `ut+trace` issue extra queries), parse
results indexed by the running count of `parse_function` calls, the
behavior of parsed callables on plain and tuple-unpacked application, the
per-retry random seeds, and a rendering of values for feedback strings. -/
structure SDEnv (F V : Type) where
  query : Nat → QueryResult
  parse : Nat → String → ParseResult F
  call : F → V → Except String V
  callStar : F → V → Except String V
  isTuple : V → Bool
  seeds : Nat → Nat
  modelName : String
  showV : V → String

/-- Applying the current candidate to one unit-test input inside
`SelfDebugLLM._unit_test` (no timeout, no output suppression there):
calling Python `None` raises a `TypeError`, which the per-case handler
captures. -/
def sdApply (env : SDEnv F V) (f : Option F) (x : V) : Except String V :=
  match f with
  | none => .error "TypeError: NoneType object is not callable"
  | some g => if env.isTuple x then env.callStar g x else env.call g x

/-- The enumerated loop of `SelfDebugLLM._unit_test`. -/
def sdUnitTestFrom (env : SDEnv F V) (f : Option F) :
    Nat → List (V × V) → List (UnitTestResult V)
  | _, [] => []
  | i, (x, y) :: rest =>
      (match sdApply env f x with
        | .ok v => (⟨i, some x, some y, some v, none⟩ : UnitTestResult V)
        | .error e => ⟨i, some x, some y, none, some e⟩) ::
      sdUnitTestFrom env f (i + 1) rest

/-- `SelfDebugLLM._unit_test`: one result per `(x, y)` pair, in order, with
every exception captured into the result. -/
def sdUnitTest (env : SDEnv F V) (f : Option F) (tests : List (V × V)) :
    List (UnitTestResult V) :=
  sdUnitTestFrom env f 0 tests

/-- Python `str(...)` of an optional value (for feedback strings). -/
def optStr (showV : V → String) : Option V → String
  | none => "None"
  | some v => showV v

/-- `SelfDebugLLM._get_unit_test_feedback`: the failing-case listing; with
`withTrace`, ends by asking for a trace on the input of the *last* failure
(the loop variable after the `for`), else with a fix request.  Only called
with a nonempty failure list in the source. -/
def unitTestFeedback [DecidableEq V] (showV : V → String)
    (failures : List (UnitTestResult V)) (withTrace : Bool) : String :=
  let body := failures.foldl
    (fun acc r =>
      match r.error with
      | some e => acc ++ optStr showV r.x ++ " -> " ++ optStr showV r.y ++
          ", raised an error " ++ e ++ "\n"
      | none => acc ++ optStr showV r.x ++ " -> " ++ optStr showV r.y ++
          ", got " ++ optStr showV r.yhat ++ " instead\n")
    "The code above fails for the following unit test(s):\n"
  if withTrace then
    body ++ "Trace the execution of the function on input " ++
      optStr showV ((failures.getLast?).elim none (fun r => r.x))
  else body ++ "Please fix the Python code."

/-- The local variables of `SelfDebugLLM.def_function` threaded through the
loops, plus the query/parse invocation counters that index the
environment.  `successTurnModelResponse = none` models the variable being
unbound (it is only ever assigned a reply string). -/
structure SDState (F : Type) where
  qCount : Nat
  pCount : Nat
  messages : List Message
  modelResponse : Option String
  function : Option F
  successFeedback : Bool
  successTurnFunction : Option F
  successTurnModelResponse : Option String
  deriving Repr

/-- The `Function` record returned by `SelfDebugLLM.def_function`. -/
structure SDFunctionRecord (F : Type) where
  function : Option F
  source : Option String
  model_name : String
  sampling_params : SamplingParams
  deriving DecidableEq, Repr

/-- Caller-visible outcome of `SelfDebugLLM.def_function`: a returned
`Function`, an uncaught exception, or the implicit `return None` reached
when the outer retry loop falls through without returning. -/
inductive SDResult (F : Type) where
  | ok (fn : SDFunctionRecord F)
  | uncaught (msg : String)
  | noneReturned
  deriving DecidableEq, Repr

/-- Outcome of one iteration of the `for turn in range(max_turns)` body:
a `return`, a `break` out to the next outer retry, or falling to the next
turn. -/
inductive TurnOut (F : Type) where
  | done (r : SDResult F)
  | breakRetry (s : SDState F)
  | next (s : SDState F)
  deriving Repr

/-- The confirmation question appended after a fully passing turn. -/
def confirmMsg : String := "Is the code above correct? If not, please fix it."

/-- Stages 3–4 of the turn body (source lines 204–292): the confirmation
check against `success_turn_function`, the unit-test run on `function`,
and the feedback-mode dispatch. -/
def turnStage3 [DecidableEq V] (env : SDEnv F V) (tests : List (V × V))
    (mode : FeedbackMode) (sp : SamplingParams) (st : SDState F) :
    TurnOut F :=
  match st.successFeedback, st.successTurnFunction with
  | true, some g =>
      let results := sdUnitTest env (some g) tests
      if results.any (fun t => t.failed) then
        .done (.ok ⟨st.function, st.modelResponse, env.modelName, sp⟩)
      else
        match st.successTurnModelResponse with
        | none => .done (.uncaught
            "UnboundLocalError: success_turn_model_response")
        | some c => .done (.ok ⟨some g, some c, env.modelName, sp⟩)
  | _, _ =>
      let results := sdUnitTest env st.function tests
      let failures := results.filter (fun t => t.failed)
      if failures.isEmpty then
        .next { st with
          successFeedback := true,
          messages := st.messages ++ [⟨"user", confirmMsg⟩] }
      else
        match mode with
        | .simple =>
            .next { st with messages := st.messages ++
              [⟨"user", "The code above is wrong. Please fix it."⟩] }
        | .ut =>
            .next { st with messages := st.messages ++
              [⟨"user", unitTestFeedback env.showV failures false⟩] }
        | .utExpl =>
            let st1 : SDState F := { st with messages := st.messages ++
              [⟨"user", "Explain the Python code line by line"⟩] }
            match env.query st1.qCount with
            | .requestException _ =>
                .breakRetry { st1 with qCount := st1.qCount + 1 }
            | .success expl =>
                .next { st1 with
                  qCount := st1.qCount + 1,
                  messages := st1.messages ++ [⟨"assistant", expl⟩,
                    ⟨"user", unitTestFeedback env.showV failures false⟩] }
        | .utTrace =>
            let st1 : SDState F := { st with messages := st.messages ++
              [⟨"user", unitTestFeedback env.showV failures true⟩] }
            match env.query st1.qCount with
            | .requestException _ =>
                .breakRetry { st1 with qCount := st1.qCount + 1 }
            | .success tr =>
                .next { st1 with
                  qCount := st1.qCount + 1,
                  messages := st1.messages ++ [⟨"assistant", tr⟩,
                    ⟨"user", "Please fix the Python code."⟩] }

/-- Stage 2 of the turn body (source lines 182–201): parse
`model_response` (note: also in the confirmation turn), assigning the
result to `success_turn_function` or `function`; on a parse exception the
handler runs `if not success_feedback: break`, otherwise control falls
through to stage 3 with the assignment not performed. -/
def turnStage2 [DecidableEq V] (env : SDEnv F V) (tests : List (V × V))
    (mode : FeedbackMode) (sp : SamplingParams) (st : SDState F) :
    TurnOut F :=
  match st.modelResponse with
  | none => .done (.uncaught "NameError: model_response is not defined")
  | some mr =>
      let pr := env.parse st.pCount mr
      let st1 := { st with pCount := st.pCount + 1 }
      match pr with
      | .ok f =>
          if st1.successFeedback then
            turnStage3 env tests mode sp { st1 with successTurnFunction := f }
          else
            turnStage3 env tests mode sp { st1 with function := f }
      | .syntaxError _ =>
          if st1.successFeedback then turnStage3 env tests mode sp st1
          else .breakRetry st1
      | .nothingToParse _ =>
          if st1.successFeedback then turnStage3 env tests mode sp st1
          else .breakRetry st1

/-- One iteration of the turn loop (source lines 152–292), starting with
the `client.query` call: the reply is appended as an assistant message and
assigned to `success_turn_model_response` in the confirmation turn, to
`model_response` otherwise; on a `RequestException` the handler runs
`if not success_feedback: break`, otherwise control falls through to the
parse stage with nothing assigned. -/
def turnBody [DecidableEq V] (env : SDEnv F V) (tests : List (V × V))
    (mode : FeedbackMode) (sp : SamplingParams) (st : SDState F) :
    TurnOut F :=
  match env.query st.qCount with
  | .requestException _ =>
      let st1 := { st with qCount := st.qCount + 1 }
      if st1.successFeedback then turnStage2 env tests mode sp st1
      else .breakRetry st1
  | .success text =>
      let st1 :=
        if st.successFeedback then
          { st with
            qCount := st.qCount + 1,
            successTurnModelResponse := some text,
            messages := st.messages ++ [⟨"assistant", text⟩] }
        else
          { st with
            qCount := st.qCount + 1,
            modelResponse := some text,
            messages := st.messages ++ [⟨"assistant", text⟩] }
      turnStage2 env tests mode sp st1

/-- Outcome of one outer retry: a `return`, or proceeding to the next
retry (by `break` or by exhausting `max_turns`). -/
inductive RetryOut (F : Type) where
  | done (r : SDResult F)
  | toNextRetry (s : SDState F)
  deriving Repr

/-- The `for turn in range(max_turns)` loop. -/
def runTurns [DecidableEq V] (env : SDEnv F V) (tests : List (V × V))
    (mode : FeedbackMode) (sp : SamplingParams) :
    Nat → SDState F → RetryOut F
  | 0, st => .toNextRetry st
  | turns + 1, st =>
      match turnBody env tests mode sp st with
      | .done r => .done r
      | .breakRetry s => .toNextRetry s
      | .next s => runTurns env tests mode sp turns s

/-- The `for cur_try in range(n_retries)` loop: per retry, draw a fresh
seed into the sampling parameters and reset `success_feedback` and
`success_turn_function` (all other locals persist); when the range is
exhausted the function body ends and Python implicitly returns `None`. -/
def runRetries [DecidableEq V] (env : SDEnv F V) (tests : List (V × V))
    (mode : FeedbackMode) (maxTurns : Nat) (sp : SamplingParams) :
    Nat → Nat → SDState F → SDResult F
  | 0, _, _ => .noneReturned
  | remaining + 1, curTry, st =>
      let sp1 := { sp with seed := some (env.seeds curTry) }
      let st1 := { st with
        successFeedback := false,
        successTurnFunction := none }
      match runTurns env tests mode sp1 maxTurns st1 with
      | .done r => r
      | .toNextRetry s =>
          runRetries env tests mode maxTurns sp1 remaining (curTry + 1) s

/-- `SelfDebugLLM.def_function`: seed the conversation with the system
instruction and the rendered prompt (`promptText` is the output of the
excluded template collaborator), then run the outer retry loop.  The
`use_cached` parameter of the source is never read in the body, so it does
not appear here. -/
def def_function_sd [DecidableEq V] (env : SDEnv F V) (promptText : String)
    (tests : List (V × V)) (mode : FeedbackMode) (maxTurns n_retries : Nat)
    (sp0 : SamplingParams) : SDResult F :=
  let msgs : List Message :=
    [⟨"system", "You are an expert programming assistant"⟩,
     ⟨"user", promptText⟩]
  runRetries env tests mode maxTurns sp0 n_retries 0
    ⟨0, 0, msgs, none, none, false, none, none⟩

/-! ### Concrete instantiations used in closed theorems and witnesses

`F := Nat` and `V := Nat`: the candidate numbered `k` behaves as the
function `fun x => x + k` (so against the oracle `[(1, 2)]` candidate `1`
passes and candidate `5` fails). -/

/-- Behavior of concrete candidate `k` on input `x`. -/
def natCall (k x : Nat) : Except String Nat := .ok (x + k)

/-- A concrete test harness environment over `Nat` candidates. -/
def testEnvW : TestEnv Nat Nat where
  isTuple := fun _ => false
  wrapped := fun _ _ f x =>
    match f with
    | none => .error "TypeError: NoneType object is not callable"
    | some k => .ok (x + k)
  wrappedStar := fun _ _ f x =>
    match f with
    | none => .error "TypeError: NoneType object is not callable"
    | some k => .ok (x + k)
  runValidator := fun _ _ _ f =>
    match f with
    | none => some "TypeError: NoneType object is not callable"
    | some _ => none

/-- Default sampling parameters with the seed drawn for attempt `n` by the
concrete environments (whose `seeds` function is the identity). -/
def spSeed (n : Nat) : SamplingParams :=
  { SamplingParams.default with seed := some n }

/-- Concrete baseline environment whose model always replies `"resp"` and
whose extractor always yields candidate `5` (which fails the oracle
`[(1, 2)]`). -/
def envC1w : BaselineEnv Nat Nat where
  test := testEnvW
  query := fun _ => .success "resp"
  parse := fun _ _ => .ok (some 5)
  parserName := "RegExParser"
  parserByName := fun _ _ => .ok (some 5)
  seeds := fun i => i
  modelName := "m"

/-- A stored cache entry for the prompt `"p"`. -/
def entryC4 : CacheEntry := ⟨"cached resp", SamplingParams.default, "RegExParser"⟩

/-- A cache containing only `entryC4` under the prompt `"p"`. -/
def cacheC4 : List (String × CacheEntry) := [("p", entryC4)]

/-- Concrete baseline environment for the cache-hit scenario: the client
and the ambient extractor would fail, so any non-cache path is visibly not
taken; re-parsing a cached response yields candidate `7`. -/
def envC4w : BaselineEnv Nat Nat where
  test := testEnvW
  query := fun _ => .requestException "unreachable"
  parse := fun _ _ => .syntaxError "unreachable"
  parserName := "RegExParser"
  parserByName := fun _ _ => .ok (some 7)
  seeds := fun i => i
  modelName := "m"

/-- A stored cache entry for the write-through scenario. -/
def entryC6 : CacheEntry := ⟨"stored resp", SamplingParams.default, "RegExParser"⟩

/-- A cache containing only `entryC6` under the prompt `"p"`. -/
def cacheC6 : List (String × CacheEntry) := [("p", entryC6)]

/-- Concrete baseline environment for the cache-hit write-through
scenario. -/
def envC6x : BaselineEnv Nat Nat where
  test := testEnvW
  query := fun _ => .requestException "unreachable"
  parse := fun _ _ => .syntaxError "unreachable"
  parserName := "RegExParser"
  parserByName := fun _ _ => .ok (some 7)
  seeds := fun i => i
  modelName := "m"

/-- Concrete baseline environment for the extraction-failure scenario: the
model reply contains no function-definition-shaped block, so
`RegExParser.parse_function` returns Python `None` (`ok none`). -/
def envC8x : BaselineEnv Nat Nat where
  test := testEnvW
  query := fun _ => .success "no code here"
  parse := fun _ _ => .ok none
  parserName := "RegExParser"
  parserByName := fun _ _ => .ok none
  seeds := fun i => i
  modelName := "m"

/-- Concrete self-debug environment for the confirmation-turn scenario:
the confirmation query succeeds and the confirmation parse yields
candidate `5`, which fails the oracle `[(1, 2)]`. -/
def envC2w : SDEnv Nat Nat where
  query := fun _ => .success "confirm reply"
  parse := fun _ _ => .ok (some 5)
  call := natCall
  callStar := natCall
  isTuple := fun _ => false
  seeds := fun i => i
  modelName := "m"
  showV := fun v => toString v

/-- The loop state at the start of a confirmation turn whose previous turn
produced validated candidate `1` from reply text `"turn T reply"`. -/
def stC2w : SDState Nat := ⟨0, 0, [], some "turn T reply", some 1, true, none, none⟩

/-- Concrete self-debug environment in which every turn parses candidate
`5`, which fails the oracle `[(1, 2)]`, so no turn ever reaches
acceptance. -/
def envC3x : SDEnv Nat Nat where
  query := fun _ => .success "resp"
  parse := fun _ _ => .ok (some 5)
  call := natCall
  callStar := natCall
  isTuple := fun _ => false
  seeds := fun i => i
  modelName := "m"
  showV := fun v => toString v

/-- Concrete self-debug environment in which turn 0 parses the passing
candidate `1` and every later parse raises a `SyntaxError` (the
confirmation-turn extraction failure). -/
def envC10x : SDEnv Nat Nat where
  query := fun n => if n == 0 then .success "turn 0 reply" else .success "confirm reply"
  parse := fun n _ => if n == 0 then .ok (some 1) else .syntaxError "invalid syntax"
  call := natCall
  callStar := natCall
  isTuple := fun _ => false
  seeds := fun i => i
  modelName := "m"
  showV := fun v => toString v

/-- The loop state at the start of a confirmation turn of `envC10x` (one
query and one parse already made, previous turn validated candidate `1`
from reply text `"turn 0 reply"`). -/
def stC10w : SDState Nat := ⟨1, 1, [], some "turn 0 reply", some 1, true, none, none⟩

/-- The state produced by a confirmation turn whose extraction failed while
the previous candidate still passes: counters advanced, the confirmation
reply recorded, and the confirmation question appended again; the loop
stays in confirmation mode instead of returning or abandoning the retry. -/
def confirmLoopState (st : SDState F) (c : String) : SDState F :=
  { st with
    qCount := st.qCount + 1,
    pCount := st.pCount + 1,
    successFeedback := true,
    successTurnModelResponse := some c,
    messages := (st.messages ++ [⟨"assistant", c⟩]) ++ [⟨"user", confirmMsg⟩] }

/-- The namespace of `pyllm/parsers/regex_parser.py` restricted to the one
pre-existing module global that matters for the scenario: the name
`Callable` (bound by `from typing import Callable`), modelled as value
`7`. -/
def c7ns : List (String × Nat) := [("Callable", 7)]

/-- The block extracted from the model text
`def foo():\n    def Callable():\n        return 1\n    return 2`:
`ast.walk` declares both `foo` and the nested `Callable`, while `exec`
binds only the top-level `foo` (modelled as value `42`). -/
def c7block : CodeBlock Nat := .wf ["foo", "Callable"] [("foo", 42)]

/-! ## Theorems -/

/-- The enumerated harness loop yields one result per remaining case. -/
theorem unitTestFrom_length (env : TestEnv F V) (t : Nat) (q : Bool)
    (f : Option F) : ∀ (i : Nat) (cs : List (TestCase V)),
    (unitTestFrom env t q f i cs).length = cs.length := by
  intro i cs
  induction cs generalizing i with
  | nil => rfl
  | cons c cs ih => simp [unitTestFrom, ih]

/-- The `j`-th result of the enumerated harness loop started at index `i`
is the captured execution of the `j`-th remaining case at index `i + j`. -/
theorem unitTestFrom_get? (env : TestEnv F V) (t : Nat) (q : Bool)
    (f : Option F) : ∀ (cs : List (TestCase V)) (i j : Nat),
    (unitTestFrom env t q f i cs).get? j =
      (cs.get? j).map (fun c => runCase env t q f (i + j) c) := by
  intro cs
  induction cs with
  | nil => intro i j; simp [unitTestFrom]
  | cons c cs ih =>
      intro i j
      cases j with
      | zero => simp [unitTestFrom]
      | succ j =>
          have := ih (i + 1) j
          simp only [unitTestFrom, List.get?_cons_succ, List.get?]
          rw [this]
          have harith : i + 1 + j = i + (j + 1) := by omega
          rw [harith]

/-- The result produced for case index `i` always records `i` as its id. -/
theorem runCase_id (env : TestEnv F V) (t : Nat) (q : Bool) (f : Option F)
    (i : Nat) (c : TestCase V) : (runCase env t q f i c).id = i := by
  cases c with
  | validator vid =>
      simp only [runCase]
      cases env.runValidator vid t q f <;> rfl
  | pair x y =>
      simp only [runCase]
      cases env.callCase t q f x <;> rfl

/-- C5.  `CodeGenerator.unit_test` returns exactly one `UnitTestResult`
per input case, in input order, and never raises (it is a total function
into a list): the `j`-th result carries id `j`; for a pair-shaped case its
input and expected output are copied into the result, and the case's
execution outcome — including any exception, such as the error raised when
the hard wall-clock timeout (source default `timeout_s = 5`) is exceeded —
is captured into the `yhat`/`error` fields; every case is executed
regardless of earlier failures (there is a result at every index below the
case count). -/
theorem c5_harness_order_and_capture [DecidableEq V] (env : TestEnv F V)
    (f : Option F) (cases : List (TestCase V)) (t : Nat) (q : Bool) :
    (unit_test env f cases t q).length = cases.length ∧
    (∀ j, j < cases.length →
      (unit_test env f cases t q).get? j =
        (cases.get? j).map (fun c => runCase env t q f j c)) ∧
    (∀ j r, (unit_test env f cases t q).get? j = some r →
      r.id = j ∧
      ∀ x y, cases.get? j = some (.pair x y) →
        r.x = some x ∧ r.y = some y ∧
        ((∃ v, env.callCase t q f x = .ok v ∧ r.yhat = some v ∧
            r.error = none) ∨
         (∃ e, env.callCase t q f x = .error e ∧ r.yhat = none ∧
            r.error = some e))) := by
  refine ⟨unitTestFrom_length env t q f 0 cases, ?_, ?_⟩
  · intro j _
    have := unitTestFrom_get? env t q f cases 0 j
    simpa [unit_test] using this
  · intro j r hr
    have hget := unitTestFrom_get? env t q f cases 0 j
    rw [unit_test] at hr
    rw [hget] at hr
    cases hc : cases.get? j with
    | none => rw [hc] at hr; simp at hr
    | some c =>
        rw [hc] at hr
        have hr' : runCase env t q f (0 + j) c = r := by simpa using hr
        subst hr'
        constructor
        · simpa using runCase_id env t q f (0 + j) c
        · intro x y hxy
          have hcx : c = .pair x y := by simpa using hxy
          subst hcx
          simp only [runCase]
          cases hcall : env.callCase t q f x with
          | ok v => exact ⟨rfl, rfl, Or.inl ⟨v, rfl, rfl, rfl⟩⟩
          | error e => exact ⟨rfl, rfl, Or.inr ⟨e, rfl, rfl, rfl⟩⟩

/-- Witness for C5: the theorem applied to a concrete harness run. -/
theorem c5_witness :
    (unit_test testEnvW (some 1) [TestCase.pair 1 2] 5 true).length =
      [TestCase.pair (1 : Nat) (2 : Nat)].length :=
  (c5_harness_order_and_capture testEnvW (some 1) [TestCase.pair 1 2]
    5 true).1

/-- C9 counterexample.  A persisted cache file whose bytes do not decode
as text (e.g. a torn write truncating a multi-byte character) makes
`json.load` raise `UnicodeDecodeError`, which the source's
`except json.JSONDecodeError` handler does not catch: opening the cache
propagates the corruption error to the caller instead of replacing the
content with an empty mapping. -/
theorem c9_counterexample :
    cacheEnter (CacheFileState.undecodable : CacheFileState CacheEntry) =
      .error "UnicodeDecodeError" := rfl

/-- C9 amended.  `CacheHandler.__enter__` never propagates a corruption
error only for file contents that decode as text: a missing file is
created as the empty mapping, decodable content on which `json.load`
raises `JSONDecodeError` is replaced in place by the empty mapping (on
which every lookup misses), and parseable content is preserved — but
content whose bytes do not decode raises `UnicodeDecodeError`, which
propagates uncaught. -/
theorem c9_amended (E : Type) (st : CacheFileState E) :
    (st ≠ .undecodable →
      ∃ m, cacheEnter st = .ok (.parsed m, m) ∧
        (st = .unparsable → m = [] ∧ ∀ p, dictLookup m p = none) ∧
        (∀ m0, st = .parsed m0 → m = m0)) ∧
    (st = .undecodable → cacheEnter st = .error "UnicodeDecodeError") := by
  cases st with
  | missing =>
      refine ⟨fun _ => ⟨[], rfl, ?_, ?_⟩, fun h => by cases h⟩
      · intro h; cases h
      · intro m0 h; cases h
  | undecodable =>
      refine ⟨fun hne => absurd rfl hne, fun _ => rfl⟩
  | unparsable =>
      refine ⟨fun _ => ⟨[], rfl, ?_, ?_⟩, fun h => by cases h⟩
      · intro _; exact ⟨rfl, fun p => rfl⟩
      · intro m0 h; cases h
  | parsed m =>
      refine ⟨fun _ => ⟨m, rfl, ?_, ?_⟩, fun h => by cases h⟩
      · intro h; cases h
      · intro m0 h; cases h; rfl

/-- Witness for the C9 amended theorem: a concrete `JSONDecodeError`
cache file is repaired to the empty mapping, on which a lookup misses. -/
theorem c9_amended_witness :
    ∃ m, cacheEnter (CacheFileState.unparsable : CacheFileState CacheEntry) =
        .ok (.parsed m, m) ∧ m = [] ∧ dictLookup m "some prompt" = none := by
  obtain ⟨m, hok, hunp, _⟩ :=
    (c9_amended CacheEntry .unparsable).1 (by intro h; cases h)
  obtain ⟨hm, hlook⟩ := hunp rfl
  exact ⟨m, hok, hm, hlook "some prompt"⟩

/-! ### Lemmas about the Python dict model -/

/-- Setting a key that does not match the head steps over the head. -/
theorem dictSet_cons_ne (a : String) (b : α) (tl : List (String × α))
    (k : String) (v : α) (h : a ≠ k) :
    dictSet ((a, b) :: tl) k v = (a, b) :: dictSet tl k v := by
  by_cases hany : tl.any (fun p => decide (p.1 = k)) = true
  · simp [dictSet, h, hany]
  · simp [dictSet, h, hany]

/-- Setting a fresh key appends it. -/
theorem dictSet_fresh (m : List (String × α)) (k : String) (v : α)
    (h : m.any (fun p => decide (p.1 = k)) = false) :
    dictSet m k v = m ++ [(k, v)] := by
  simp only [dictSet, h]
  simp

/-- Finding a key other than the set one is unaffected by the in-place
replacement map of `dictSet`. -/
theorem find_mapSet_ne (k q : String) (v : α) (hqk : q ≠ k) :
    ∀ m : List (String × α),
    (m.map (fun p => if p.1 = k then (k, v) else p)).find?
        (fun p => decide (p.1 = q)) =
      m.find? (fun p => decide (p.1 = q)) := by
  intro m
  induction m with
  | nil => rfl
  | cons hd tl ih =>
      obtain ⟨a, b⟩ := hd
      rw [List.map_cons]
      by_cases hak : a = k
      · rw [if_pos hak]
        have hkq : ((fun p => decide (p.1 = q)) ((k, v) : String × α)) = false := by
          simp only [decide_eq_false_iff_not]
          exact fun hh => hqk hh.symm
        have haq : ((fun p => decide (p.1 = q)) ((a, b) : String × α)) = false := by
          simp only [decide_eq_false_iff_not]
          exact fun hh => hqk (hak ▸ hh).symm
        rw [List.find?_cons_of_neg _ (by simp [hkq]),
          List.find?_cons_of_neg _ (by simp [haq]), ih]
      · rw [if_neg hak]
        by_cases haq : a = q
        · rw [List.find?_cons_of_pos _ (by simp [haq]),
            List.find?_cons_of_pos _ (by simp [haq])]
        · rw [List.find?_cons_of_neg _ (by simp [haq]),
            List.find?_cons_of_neg _ (by simp [haq]), ih]

/-- Finding the set key after the in-place replacement map of `dictSet`
yields the new pair exactly when the key was present. -/
theorem find_mapSet_self (k : String) (v : α) :
    ∀ m : List (String × α),
    (m.map (fun p => if p.1 = k then (k, v) else p)).find?
        (fun p => decide (p.1 = k)) =
      (m.find? (fun p => decide (p.1 = k))).map (fun _ => (k, v)) := by
  intro m
  induction m with
  | nil => rfl
  | cons hd tl ih =>
      obtain ⟨a, b⟩ := hd
      by_cases hak : a = k
      · simp [List.find?_cons, hak]
      · simp [List.find?_cons, hak, ih]

/-- If no entry matches the key, `find?` over the dict misses. -/
theorem find_none_of_any_false (m : List (String × α)) (k : String)
    (hany : m.any (fun p => decide (p.1 = k)) = false) :
    m.find? (fun p => decide (p.1 = k)) = none := by
  rw [List.find?_eq_none]
  intro p hp
  simp only [decide_eq_true_eq]
  intro hpk
  have hw : m.any (fun p => decide (p.1 = k)) = true := by
    rw [List.any_eq_true]
    exact ⟨p, hp, by simpa using hpk⟩
  rw [hw] at hany
  cases hany

/-- After a Python dict assignment, the set key is bound to the new value
(whether the key was fresh or its previous binding was replaced in
place). -/
theorem dictLookup_dictSet_self (m : List (String × α)) (k : String)
    (v : α) : dictLookup (dictSet m k v) k = some v := by
  cases hany : m.any (fun p => decide (p.1 = k)) with
  | true =>
      rw [dictSet, if_pos hany, dictLookup, find_mapSet_self]
      have hsome : (m.find? (fun p => decide (p.1 = k))).isSome := by
        rw [List.find?_isSome]
        rcases List.any_eq_true.mp hany with ⟨p, hp, hpk⟩
        exact ⟨p, hp, hpk⟩
      cases hfind : m.find? (fun p => decide (p.1 = k)) with
      | none => rw [hfind] at hsome; cases hsome
      | some p => rfl
  | false =>
      rw [dictSet, if_neg (by simp [hany]), dictLookup, List.find?_append,
        find_none_of_any_false m k hany]
      simp [List.find?_cons]

/-- A Python dict assignment leaves every other key unchanged. -/
theorem dictLookup_dictSet_ne (m : List (String × α)) (k : String)
    (v : α) (q : String) (hq : q ≠ k) :
    dictLookup (dictSet m k v) q = dictLookup m q := by
  cases hany : m.any (fun p => decide (p.1 = k)) with
  | true =>
      rw [dictSet, if_pos hany, dictLookup, dictLookup,
        find_mapSet_ne k q v hq]
  | false =>
      rw [dictSet, if_neg (by simp [hany]), dictLookup, dictLookup,
        List.find?_append]
      cases hfind : m.find? (fun p => decide (p.1 = q)) with
      | some p => rfl
      | none =>
          have hkq : ¬((k : String) = q) := fun hh => hq hh.symm
          simp [List.find?_cons, hkq]

/-- Re-assigning to a key its already-bound value leaves every lookup
unchanged. -/
theorem dictLookup_dictSet_rebind (m : List (String × α)) (k : String)
    (v : α) (h : dictLookup m k = some v) (q : String) :
    dictLookup (dictSet m k v) q = dictLookup m q := by
  by_cases hq : q = k
  · subst hq
    rw [dictLookup_dictSet_self, h]
  · rw [dictLookup_dictSet_ne m k v q hq]

/-- Detecting against a single declared name is exactly a dict lookup. -/
theorem firstDetected_singleton (ns : List (String × V)) (n : String) :
    firstDetected ns [n] = dictLookup ns n := by
  rw [firstDetected, dictLookup]
  have hpred : (fun p : String × V => decide (p.1 ∈ [n])) =
      (fun p : String × V => decide (p.1 = n)) := by
    funext p
    simp
  rw [hpred]

/-- Executing bindings whose keys are fresh for the namespace and mutually
distinct appends them in order. -/
theorem execBindings_fresh_append :
    ∀ (defs : List (String × V)) (ns : List (String × V)),
    (∀ p ∈ defs, ns.any (fun q => decide (q.1 = p.1)) = false) →
    (defs.map Prod.fst).Nodup →
    execBindings ns defs = ns ++ defs := by
  intro defs
  induction defs with
  | nil => intro ns _ _; simp [execBindings]
  | cons hd tl ih =>
      obtain ⟨k, v⟩ := hd
      intro ns hfresh hnd
      have hhead : ns.any (fun q => decide (q.1 = k)) = false :=
        hfresh (k, v) (List.mem_cons_self _ _)
      have hnd' : (k :: tl.map Prod.fst).Nodup := by simpa using hnd
      have hknotin : k ∉ tl.map Prod.fst := (List.nodup_cons.mp hnd').1
      have hstep : execBindings ns ((k, v) :: tl) =
          execBindings (dictSet ns k v) tl := rfl
      rw [hstep, dictSet_fresh ns k v hhead]
      rw [ih (ns ++ [(k, v)]) ?_ ?_]
      · simp
      · intro p hp
        rw [List.any_append]
        have h1 : ns.any (fun q => decide (q.1 = p.1)) = false :=
          hfresh p (List.mem_cons_of_mem _ hp)
        have h2 : (k ≠ p.1) := by
          intro hk
          exact hknotin (hk ▸ List.mem_map_of_mem Prod.fst hp)
        simp [h1, h2, List.any_cons]
      · have hnd' : (k :: tl.map Prod.fst).Nodup := by simpa using hnd
        exact (List.nodup_cons.mp hnd').2

/-- No namespace entry matches any declared name when all declared names
are fresh. -/
theorem find_detect_none_of_fresh (ns : List (String × V))
    (defs : List (String × V))
    (hfresh : ∀ p ∈ defs, ns.any (fun q => decide (q.1 = p.1)) = false) :
    ns.find? (fun p => decide (p.1 ∈ defs.map Prod.fst)) = none := by
  rw [List.find?_eq_none]
  intro p hp
  simp only [decide_eq_true_eq]
  intro hmem
  rcases List.mem_map.mp hmem with ⟨d, hd, hdp⟩
  have hone := hfresh d hd
  have hw : ns.any (fun q => decide (q.1 = d.1)) = true := by
    rw [List.any_eq_true]
    refine ⟨p, hp, ?_⟩
    simp only [decide_eq_true_eq]
    exact hdp.symm
  rw [hw] at hone
  cases hone

/-- C7 counterexample.  The concrete namespace/block pair modelling the
module global `Callable` and the model text
`def foo():\n    def Callable():\n        return 1\n    return 2`:
the source's `parse_function` returns the pre-existing value bound to
`Callable` (namespace-insertion order wins), while the claim's
block-then-declaration order would return the newly defined `foo`. -/
theorem c7_counterexample :
    parse_function c7ns [] [c7block] = .ok (some 7) ∧
    parse_function_spec c7ns [] [c7block] = .ok (some 42) := by
  constructor <;> rfl

/-- C7 amended.  `parse_function` returns, from the first block one of
whose declared names is bound in the (updated) namespace, the value at the
first position of the namespace in namespace-insertion order whose name is
declared — not the first in block-then-declaration order.  The two orders
agree in the common cases: (a) a block declaring exactly one function name
returns the value `exec` bound to that name, for every prior namespace
content; (b) when a block has no nested definitions (its declared names
are exactly its top-level bindings) and none of its names collides with a
pre-existing namespace entry, the source's result and the spec-order
result coincide on the value of the block's first definition. -/
theorem c7_amended :
    (∀ (ns : List (String × Nat)) (n : String) (v : Nat),
      parse_function ns [] [.wf [n] [(n, v)]] = .ok (some v)) ∧
    (∀ (ns : List (String × Nat)) (k₀ : String) (v₀ : Nat)
        (rest : List (String × Nat)),
      (∀ p ∈ (k₀, v₀) :: rest,
        ns.any (fun q => decide (q.1 = p.1)) = false) →
      (((k₀, v₀) :: rest).map Prod.fst).Nodup →
      parse_function ns []
          [.wf (((k₀, v₀) :: rest).map Prod.fst) ((k₀, v₀) :: rest)] =
        .ok (some v₀) ∧
      parse_function_spec ns []
          [.wf (((k₀, v₀) :: rest).map Prod.fst) ((k₀, v₀) :: rest)] =
        .ok (some v₀)) := by
  constructor
  · intro ns n v
    have hns1 : execBindings ns [(n, v)] = dictSet ns n v := rfl
    have hdet : firstDetected (dictSet ns n v) [n] = some v := by
      rw [firstDetected_singleton, dictLookup_dictSet_self]
    have hid : execBindings ns ([] : List (String × Nat)) = ns := rfl
    simp only [parse_function, hid, runBlocks, hns1, hdet]
  · intro ns k₀ v₀ rest hfresh hnd
    have hns1 : execBindings ns ((k₀, v₀) :: rest) =
        ns ++ ((k₀, v₀) :: rest) :=
      execBindings_fresh_append _ ns hfresh hnd
    have hid : execBindings ns ([] : List (String × Nat)) = ns := rfl
    constructor
    · have hdet : firstDetected (ns ++ ((k₀, v₀) :: rest))
          (((k₀, v₀) :: rest).map Prod.fst) = some v₀ := by
        rw [firstDetected, List.find?_append,
          find_detect_none_of_fresh ns _ hfresh]
        simp [List.find?_cons]
      simp only [parse_function, hid, runBlocks, hns1, hdet]
    · have hlook : dictLookup (ns ++ ((k₀, v₀) :: rest)) k₀ = some v₀ := by
        rw [dictLookup, List.find?_append]
        have hnsnone : ns.find? (fun p => decide (p.1 = k₀)) = none := by
          apply find_none_of_any_false
          exact hfresh (k₀, v₀) (List.mem_cons_self _ _)
        rw [hnsnone]
        simp [List.find?_cons]
      have hfirst : firstDeclaredResolving (ns ++ ((k₀, v₀) :: rest))
          (((k₀, v₀) :: rest).map Prod.fst) = some v₀ := by
        rw [List.map_cons, firstDeclaredResolving, hlook]
      simp only [parse_function_spec, hid, runBlocksSpec, hns1, hfirst]

/-- Witness for the C7 amended theorem: a concrete fresh-name block on
which source order and spec order agree. -/
theorem c7_amended_witness :
    parse_function [("g", 1)] [] [.wf ["f"] [(("f" : String), (3 : Nat))]] =
      .ok (some 3) ∧
    parse_function_spec [("g", 1)] []
        [.wf ["f"] [(("f" : String), (3 : Nat))]] = .ok (some 3) :=
  c7_amended.2 [("g", 1)] "f" 3 [] (by decide) (by decide)

/-- When every attempt in range fails (transport failure, extraction
failure, or at least one failing test case), the retry loop exhausts,
issuing exactly one model query per attempt. -/
theorem attemptLoop_exhausts [DecidableEq V] (env : BaselineEnv F V)
    (cases : Option (List (TestCase V)))
    (htruthy : unitTestsTruthy cases = true) :
    ∀ (remaining i nQ nT : Nat) (sp : SamplingParams),
    (∀ j, j < remaining → ∀ r, env.query (i + j) = .success r →
      ∀ f, env.parse (i + j) r = .ok f →
      ((unit_test_default env.test f (cases.getD [])).filter
        (fun t => t.failed)).isEmpty = false) →
    ∃ sp2 nT2, attemptLoop env cases i remaining sp nQ nT =
      .exhausted sp2 (nQ + remaining) nT2 := by
  intro remaining
  induction remaining with
  | zero =>
      intro i nQ nT sp _
      exact ⟨sp, nT, by simp [attemptLoop]⟩
  | succ rem ih =>
      intro i nQ nT sp h
      have hshift : ∀ j, j < rem → ∀ r, env.query (i + 1 + j) = .success r →
          ∀ f, env.parse (i + 1 + j) r = .ok f →
          ((unit_test_default env.test f (cases.getD [])).filter
            (fun t => t.failed)).isEmpty = false := by
        intro j hj r hr f hf
        have harith : i + 1 + j = i + (j + 1) := by omega
        rw [harith] at hr hf
        exact h (j + 1) (by omega) r hr f hf
      have harith : nQ + 1 + rem = nQ + (rem + 1) := by omega
      cases hq : env.query i with
      | requestException b =>
          obtain ⟨sp2, nT2, hrec⟩ :=
            ih (i + 1) (nQ + 1) nT { sp with seed := some (env.seeds i) }
              hshift
          refine ⟨sp2, nT2, ?_⟩
          rw [harith] at hrec
          simp only [attemptLoop, hq]
          exact hrec
      | success r =>
          cases hp : env.parse i r with
          | syntaxError msg =>
              obtain ⟨sp2, nT2, hrec⟩ :=
                ih (i + 1) (nQ + 1) nT { sp with seed := some (env.seeds i) }
                  hshift
              refine ⟨sp2, nT2, ?_⟩
              rw [harith] at hrec
              simp only [attemptLoop, hq, hp]
              exact hrec
          | nothingToParse msg =>
              obtain ⟨sp2, nT2, hrec⟩ :=
                ih (i + 1) (nQ + 1) nT { sp with seed := some (env.seeds i) }
                  hshift
              refine ⟨sp2, nT2, ?_⟩
              rw [harith] at hrec
              simp only [attemptLoop, hq, hp]
              exact hrec
          | ok f =>
              have hfail := h 0 (by omega) r (by simpa using hq) f
                (by simpa using hp)
              obtain ⟨sp2, nT2, hrec⟩ :=
                ih (i + 1) (nQ + 1) (nT + 1)
                  { sp with seed := some (env.seeds i) } hshift
              refine ⟨sp2, nT2, ?_⟩
              rw [harith] at hrec
              simp only [attemptLoop, hq, hp, htruthy, hfail,
                if_true, Bool.false_eq_true, if_false]
              exact hrec

/-- C1.  For every prompt not served from the cache (`use_cached = false`
or a cache miss) and every truthy oracle that no candidate parsed during
the run satisfies, `CodeLLM.def_function` with `n_retries = k` issues
exactly `k` model queries and raises `TooManyRetries`; in particular it
returns no candidate. -/
theorem c1_retry_exhaustion [DecidableEq V] (env : BaselineEnv F V)
    (prompt : String) (cases : Option (List (TestCase V)))
    (use_cached : Bool) (k : Nat) (sp0 : SamplingParams)
    (cache : List (String × CacheEntry))
    (hmiss : (if use_cached then dictLookup cache prompt else none) =
      none)
    (htruthy : unitTestsTruthy cases = true)
    (hfail : ∀ i, i < k → ∀ r, env.query i = .success r →
      ∀ f, env.parse i r = .ok f →
      ((unit_test_default env.test f (cases.getD [])).filter
        (fun t => t.failed)).isEmpty = false) :
    (def_function_baseline env prompt cases use_cached k sp0
        cache).result = .tooManyRetries "n_retries exceeded." ∧
    (def_function_baseline env prompt cases use_cached k sp0
        cache).nQueries = k := by
  obtain ⟨sp2, nT2, hloop⟩ :=
    attemptLoop_exhausts env cases htruthy k 0 0 0 sp0
      (by simpa using hfail)
  rw [def_function_baseline, hmiss, hloop]
  exact ⟨rfl, by simp⟩

/-- Witness for C1: a concrete miss-path run with two attempts whose
candidate always fails the oracle issues exactly two queries. -/
theorem c1_witness :
    (def_function_baseline envC1w "p" (some [TestCase.pair 1 2]) false 2
        SamplingParams.default []).nQueries = 2 := by
  refine (c1_retry_exhaustion envC1w "p" (some [TestCase.pair 1 2]) false 2
    SamplingParams.default [] rfl rfl ?_).2
  intro i _ r hr f hf
  have hr' : r = "resp" := by
    injection hr.symm
  subst hr'
  have hf' : f = some 5 := by
    injection hf.symm
  subst hf'
  decide

/-- C4.  On a cache hit with `use_cached = true`, `CodeLLM.def_function`
issues no model query and runs no unit-test batch: its entire outcome is
determined by the cache entry — the returned candidate is the result of
re-running the extractor named in the entry over the stored response text,
with the stored sampling parameters and extractor identity, for every
oracle argument (the oracle does not appear on the right-hand side). -/
theorem c4_cache_hit_bypass [DecidableEq V] (env : BaselineEnv F V)
    (prompt : String) (cases : Option (List (TestCase V))) (k : Nat)
    (sp0 : SamplingParams) (cache : List (String × CacheEntry))
    (e : CacheEntry) (f : Option F)
    (hhit : dictLookup cache prompt = some e)
    (hparse : env.parserByName e.parserName e.model_response = .ok f) :
    def_function_baseline env prompt cases true k sp0 cache =
      ⟨.ok ⟨f, e.model_response, env.modelName, e.sampling_params,
          e.parserName⟩,
        dictSet cache prompt e, 0, 0, true⟩ := by
  rw [def_function_baseline]
  simp only [if_true, hhit, hparse]

/-- Witness for C4: a concrete cache hit returns the reconstructed
candidate without any query or test run. -/
theorem c4_witness :
    def_function_baseline envC4w "p" (some [TestCase.pair 1 2]) true 3
        SamplingParams.default cacheC4 =
      ⟨.ok ⟨some 7, entryC4.model_response, envC4w.modelName,
          entryC4.sampling_params, entryC4.parserName⟩,
        dictSet cacheC4 "p" entryC4, 0, 0, true⟩ :=
  c4_cache_hit_bypass envC4w "p" (some [TestCase.pair 1 2]) 3
    SamplingParams.default cacheC4 entryC4 (some 7) rfl rfl

/-- C6 counterexample.  A concrete call satisfied by a cache hit —
`"p"` is in the cache — nevertheless writes the cache file
(`wroteCache = true`), contradicting the claim that no entry is written
or overwritten on the cache-hit path. -/
theorem c6_counterexample :
    dictLookup cacheC6 "p" = some entryC6 ∧
    (def_function_baseline envC6x "p"
        (none : Option (List (TestCase Nat))) true 1
        SamplingParams.default cacheC6).wroteCache = true := by
  constructor <;> rfl

/-- C6 amended.  The cache write-through happens on every successful
return, including the cache-hit path: on a hit the entry is re-stored
under the prompt, reconstructed from the loaded entry, so a write occurs
— but the re-stored value equals the stored one (the
`asdict(SamplingParams(**d))` round-trip is the identity on entries this
code writes), so the mapping's content is unchanged at every key. -/
theorem c6_amended [DecidableEq V] (env : BaselineEnv F V)
    (prompt : String) (cases : Option (List (TestCase V))) (k : Nat)
    (sp0 : SamplingParams) (cache : List (String × CacheEntry))
    (e : CacheEntry) (f : Option F)
    (hhit : dictLookup cache prompt = some e)
    (hparse : env.parserByName e.parserName e.model_response = .ok f) :
    (def_function_baseline env prompt cases true k sp0
        cache).wroteCache = true ∧
    (def_function_baseline env prompt cases true k sp0
        cache).finalCache = dictSet cache prompt e ∧
    ∀ q, dictLookup ((def_function_baseline env prompt cases true k sp0
        cache).finalCache) q = dictLookup cache q := by
  have hout : def_function_baseline env prompt cases true k sp0 cache =
      ⟨.ok ⟨f, e.model_response, env.modelName, e.sampling_params,
          e.parserName⟩,
        dictSet cache prompt e, 0, 0, true⟩ := by
    rw [def_function_baseline]
    simp only [if_true, hhit, hparse]
  rw [hout]
  exact ⟨rfl, rfl, fun q => dictLookup_dictSet_rebind cache prompt e hhit q⟩

/-- Witness for the C6 amended theorem: on a concrete cache hit the file
is written, the stored entry is re-stored, and every lookup is
unchanged. -/
theorem c6_amended_witness :
    dictLookup ((def_function_baseline envC6x "q6"
        (none : Option (List (TestCase Nat))) true 1
        SamplingParams.default [("q6", entryC6)]).finalCache) "q6" =
      dictLookup [("q6", entryC6)] "q6" :=
  (c6_amended envC6x "q6" none 1 SamplingParams.default [("q6", entryC6)]
    entryC6 (some 7) rfl rfl).2.2 "q6"

/-- C8 (code-bug evaluation).  With the default extractor a model reply
containing no function-definition-shaped block makes
`RegExParser.parse_function` return Python `None` instead of raising
`NothingToParseError`, so with no unit tests supplied the attempt is
accepted: `CodeLLM.def_function` returns a `Function` whose callable is
`None` (and caches the reply) instead of treating the attempt as a
retryable extraction failure. -/
theorem c8_none_candidate_accepted :
    def_function_baseline envC8x "p" (none : Option (List (TestCase Nat)))
        false 1 SamplingParams.default [] =
      ⟨.ok ⟨none, "no code here", "m", spSeed 0, "RegExParser"⟩,
        [("p", ⟨"no code here", spSeed 0, "RegExParser"⟩)], 1, 0, true⟩ := by
  rfl

/-- C2.  From any confirmation-turn state (a previous turn T produced a
fully passing candidate `fT` from reply text `mrT` and set
`success_feedback`), when the confirmation query succeeds and the
confirmation parse produces a candidate `g`: if `g` fails at least one
test case, the loop returns turn T's candidate — its function `fT` and its
source text `mrT` — and if `g` passes every case, the loop returns `g`
with the confirmation reply as its source.  (Faithful to the source, the
confirmation parse is applied to `model_response`, i.e. turn T's reply
text, not the confirmation reply.) -/
theorem c2_confirmation_non_regression [DecidableEq V] (env : SDEnv F V)
    (tests : List (V × V)) (mode : FeedbackMode) (sp : SamplingParams)
    (st : SDState F) (turns : Nat) (fT : F) (mrT c : String) (g : F)
    (hsf : st.successFeedback = true)
    (hfn : st.function = some fT)
    (hmr : st.modelResponse = some mrT)
    (hpass : (sdUnitTest env (some fT) tests).any (fun t => t.failed) =
      false)
    (hq : env.query st.qCount = .success c)
    (hp : env.parse st.pCount mrT = .ok (some g)) :
    ((sdUnitTest env (some g) tests).any (fun t => t.failed) = true →
      runTurns env tests mode sp (turns + 1) st =
        .done (.ok ⟨some fT, some mrT, env.modelName, sp⟩)) ∧
    ((sdUnitTest env (some g) tests).any (fun t => t.failed) = false →
      runTurns env tests mode sp (turns + 1) st =
        .done (.ok ⟨some g, some c, env.modelName, sp⟩)) := by
  constructor <;> intro hres <;>
    simp only [runTurns, turnBody, hq, hsf, if_true, turnStage2, hmr, hp,
      turnStage3, hfn, hres, Bool.false_eq_true, if_false]

/-- Witness for C2: in a concrete confirmation turn whose candidate fails
the oracle, the loop returns the previous turn's candidate `1` with its
source text. -/
theorem c2_witness :
    runTurns envC2w [(1, 2)] .simple SamplingParams.default 1 stC2w =
      .done (.ok ⟨some 1, some "turn T reply", "m",
        SamplingParams.default⟩) :=
  (c2_confirmation_non_regression envC2w [(1, 2)] .simple
    SamplingParams.default stC2w 0 1 "turn T reply" "confirm reply" 5
    rfl rfl rfl (by decide) rfl rfl).1 (by decide)

/-- C3 (code-bug evaluation).  A concrete `SelfDebugLLM.def_function`
call that exhausts its single outer retry without any turn reaching
acceptance falls off the end of the function body and implicitly returns
Python `None` — no `TooManyRetries` is raised and no candidate is
returned. -/
theorem c3_silent_fallthrough :
    def_function_sd envC3x "prompt text" [(1, 2)] .simple 1 1
      SamplingParams.default = .noneReturned := by
  rfl

/-- C10 counterexample.  A concrete run in which turn 0 produces a fully
passing candidate and the confirmation turn's extraction raises a
`SyntaxError`: with `max_turns = 2` and `n_retries = 1` the call returns
Python `None`, not the previous turn's already-validated candidate, so a
confirmation-turn extraction failure does not make `def_function` return
the validated candidate. -/
theorem c10_counterexample :
    def_function_sd envC10x "prompt text" [(1, 2)] .simple 2 1
      SamplingParams.default = .noneReturned := by
  rfl

/-- C10 amended.  Outside the confirmation turn an extraction failure
abandons the current outer retry (`break`).  Inside the confirmation turn
an extraction failure does not abandon the retry, but neither does it
return the previous turn's candidate: the handler's
`if not success_feedback: break` does nothing, `success_turn_function`
stays unset, the previous turn's still-passing candidate is merely
re-tested, the confirmation question is appended again, and the loop
proceeds to another confirmation turn — the validated candidate is
returned only if a later confirmation turn parses a candidate; if turns
and retries run out first, the call returns no candidate. -/
theorem c10_amended {F V : Type} [DecidableEq V] :
    (∀ (env : SDEnv F V) (tests : List (V × V)) (mode : FeedbackMode)
        (sp : SamplingParams) (st : SDState F) (text msg : String),
      st.successFeedback = false →
      env.query st.qCount = .success text →
      (env.parse st.pCount text = .syntaxError msg ∨
        env.parse st.pCount text = .nothingToParse msg) →
      turnBody env tests mode sp st = .breakRetry
        { st with
          qCount := st.qCount + 1,
          pCount := st.pCount + 1,
          modelResponse := some text,
          messages := st.messages ++ [⟨"assistant", text⟩] }) ∧
    (∀ (env : SDEnv F V) (tests : List (V × V)) (mode : FeedbackMode)
        (sp : SamplingParams) (st : SDState F) (c msg mrT : String),
      st.successFeedback = true →
      st.successTurnFunction = none →
      st.modelResponse = some mrT →
      env.query st.qCount = .success c →
      (env.parse st.pCount mrT = .syntaxError msg ∨
        env.parse st.pCount mrT = .nothingToParse msg) →
      ((sdUnitTest env st.function tests).filter
        (fun t => t.failed)).isEmpty = true →
      turnBody env tests mode sp st = .next (confirmLoopState st c)) := by
  constructor
  · intro env tests mode sp st text msg hsf hq hp
    cases hp with
    | inl hp => simp only [turnBody, hq, hsf, if_false, turnStage2, hp,
        Bool.false_eq_true]
    | inr hp => simp only [turnBody, hq, hsf, if_false, turnStage2, hp,
        Bool.false_eq_true]
  · intro env tests mode sp st c msg mrT hsf hstf hmr hq hp hpassing
    cases hp with
    | inl hp =>
        simp only [turnBody, hq, hsf, if_true, turnStage2, hmr, hp,
          turnStage3, hstf, hpassing, confirmLoopState]
    | inr hp =>
        simp only [turnBody, hq, hsf, if_true, turnStage2, hmr, hp,
          turnStage3, hstf, hpassing, confirmLoopState]

/-- Witness for the C10 amended theorem: the concrete confirmation turn
with a `SyntaxError` extraction failure stays in the loop with the
confirmation state. -/
theorem c10_amended_witness :
    turnBody envC10x [(1, 2)] .simple SamplingParams.default stC10w =
      .next (confirmLoopState stC10w "confirm reply") :=
  c10_amended.2 envC10x [(1, 2)] .simple SamplingParams.default stC10w
    "confirm reply" "invalid syntax" "turn 0 reply" rfl rfl rfl rfl
    (Or.inl rfl) (by decide)

end PyLLM
